import Mathlib

/-!
Verification development for BitDown (src/bitdown.py), a magnet-link download
manager.  The definitions below are a shallow embedding of the task
orchestration layer: the two engine thread classes (`DownloadThread`,
`SimulatedDownloadThread`) and the supervisor methods of
`BitDownMainWindow` (`add_download`, `start_task`, `pause_task`,
`cancel_task`, `update_global_stats`, `update_task_progress`).
Python ints are modelled as `Nat`, Python floats occurring in rate/time
arithmetic as `ℚ`, task statuses (the Chinese status strings of the source)
as the inductive `Status`, and the Qt signal emissions as explicit event
lists.
-/

namespace BitDown

/-- Task statuses, one constructor per status string the source writes into
column 5 of the task table / emits via `status_changed`:
`等待中` (waiting), `解析中`/`正在解析磁力链接...` (resolving),
`正在获取元数据...` (fetching metadata), `下载中` (downloading),
`已暂停` (paused), `已完成`/`下载完成` (completed), `已取消` (cancelled),
`已停止` (stopped, emitted by the simulated thread on stop),
`下载失败` (failed). -/
inductive Status where
  | waiting
  | resolving
  | fetchingMetadata
  | downloading
  | paused
  | completed
  | cancelled
  | stopped
  | failed
deriving DecidableEq, Repr

/-- Terminal statuses (`Completed`, `Cancelled`, `Failed` of the spec; the
simulated thread's `stopped` is likewise terminal). -/
def Status.isTerminal : Status → Bool
  | .completed => true
  | .cancelled => true
  | .stopped => true
  | .failed => true
  | _ => false

/-- Events emitted by an engine thread via its four pyqtSignals. -/
inductive Ev where
  | progressEv (progress : Nat) (rate : ℚ) (timeLeft : ℚ)
  | statusEv (s : Status)
  | completedEv (path : String)
  | errorEv (msg : String)
deriving DecidableEq, Repr

/-! ## C2: `start_task`'s real-engine construction always raises

`BitDownMainWindow.start_task` (src/bitdown.py:1062-1117) constructs the
real `DownloadThread` with the keyword argument `max_download_rate=max_download_rate`
(line 1071).  The name `max_download_rate` is never bound in the scope of
`start_task` (the local read from settings is called `speed_limit`, lines
1025/1033), and it is not a module-level global either, so evaluating the
call raises `NameError`, which the `except` at line 1098 catches by
constructing a `SimulatedDownloadThread` instead.  We embed Python's name
resolution for this expression explicitly: the environment is the list of
names bound in `start_task`'s scope (locals assigned anywhere in the
function body plus the referenced module globals). -/

/-- Which engine class a constructed thread belongs to. -/
inductive EngineKind where
  | real
  | simulated
deriving DecidableEq, Repr

/-- Names visible when line 1067-1072 of `start_task` executes: the
function's parameter, every local assigned in its body, and the module
globals it references. -/
def startTaskScope : List String :=
  ["self", "row", "task_id", "magnet_link", "save_path",
   "max_connections", "max_uploads", "speed_limit_enabled", "speed_limit",
   "thread", "error_info", "action_widget", "i", "button", "inner_error",
   "HAS_LIBTORRENT", "lt", "QMessageBox", "QTableWidgetItem", "Qt",
   "DownloadThread", "SimulatedDownloadThread", "os", "traceback", "print"]

/-- Python name resolution for one identifier: `some` if the name is bound
in the scope, `none` meaning a `NameError` is raised. -/
def resolveName (scope : List String) (x : String) : Option String :=
  if x ∈ scope then some x else none

/-- Evaluating `DownloadThread(task_id, magnet_link, save_path,
max_connections=max_connections, max_uploads=max_uploads,
max_download_rate=max_download_rate)` (lines 1067-1072): every argument
expression is a name; if any fails to resolve the construction raises. -/
def constructDownloadThread (scope : List String) : Except String EngineKind :=
  match resolveName scope "task_id", resolveName scope "magnet_link",
        resolveName scope "save_path", resolveName scope "max_connections",
        resolveName scope "max_uploads", resolveName scope "max_download_rate" with
  | some _, some _, some _, some _, some _, some _ => .ok .real
  | _, _, _, _, _, _ => .error "NameError: name max_download_rate is not defined"

/-- The engine-construction part of `start_task` (lines 1062-1117) for a
task with no existing thread: with libtorrent the real construction is
attempted and any exception falls back to `SimulatedDownloadThread`
(lines 1098-1113); without libtorrent the simulated thread is used
directly (lines 1083-1096). -/
def start_task_engine (hasLibtorrent : Bool) (scope : List String) : EngineKind :=
  if hasLibtorrent then
    match constructDownloadThread scope with
    | .ok k => k
    | .error _ => .simulated
  else
    .simulated

/-! ## C7: remaining-time computation of the real download loop

Lines 422-437 of `DownloadThread.run`: `download_rate` is
`status.download_rate / 1024` (KB/s); `time_left` starts at `0` and is set
to `remaining_bytes / (download_rate * 1024)` only when
`download_rate > 0 and progress < 100`. -/

/-- `time_left` as computed at src/bitdown.py:428-437.  `downloadRateKB` is
the rate in KB/s (`status.download_rate / 1024`); the divisor
`downloadRateKB * 1024` is the rate in bytes per second. -/
def compute_time_left (totalBytes totalDone : Nat) (downloadRateKB : ℚ)
    (progress : Nat) : ℚ :=
  if 0 < downloadRateKB ∧ progress < 100 then
    ((totalBytes : ℚ) - (totalDone : ℚ)) / (downloadRateKB * 1024)
  else
    0

/-! ## C1: the aggregator tick `update_global_stats`

`BitDownMainWindow.update_global_stats` (src/bitdown.py:1349-1359) runs on
the 1-second `stats_timer`.  Its loop over `self.download_threads.values()`
filters for running, non-paused threads but its body is `pass`; the method
then sets the speed label to the constant string `"总速度: 0 KB/s"`.  It
publishes no task count (the `tasks_label` is only touched by
`update_tasks_count`, which shows the total row count and is not on the
timer). -/

/-- What the aggregator can see of one engine thread. -/
structure ThreadView where
  isRunning : Bool
  is_paused : Bool
  /-- current download rate of the thread, bytes per second -/
  rate : Nat
deriving DecidableEq, Repr

/-- The total rate published by `update_global_stats`: `total_speed`
starts at 0, the loop over running non-paused threads contributes nothing
(its body is `pass`), and the label renders that total. -/
def update_global_stats (threads : List ThreadView) : Nat :=
  let total_speed : Nat := 0
  let _ := threads.filter (fun t => t.isRunning && !t.is_paused)
  total_speed

/-- The label text set by `update_global_stats`. -/
def update_global_stats_label (threads : List ThreadView) : String :=
  "总速度: " ++ toString (update_global_stats threads) ++ " KB/s"

/-- Follows the spec's words (§4.3 StatsAggregator), for comparison with
`update_global_stats`: a tick "sums `downloadRateBytesPerSec` across tasks
in `Downloading` state", i.e. across running, non-paused threads. -/
def specTickTotalRate (threads : List ThreadView) : Nat :=
  (threads.filter (fun t => t.isRunning && !t.is_paused)).foldl
    (fun acc t => acc + t.rate) 0

/-- Follows the spec's words (§4.3 StatsAggregator), for comparison: a tick
"counts tasks in non-terminal states". -/
def specTickActiveCount (statuses : List Status) : Nat :=
  (statuses.filter (fun s => !s.isTerminal)).length

/-! ## C10: pause idempotence

`SimulatedDownloadThread.pause_download` (src/bitdown.py:181-184) sets
`self.is_paused = True` and nothing else.
`DownloadThread.pause_download` (src/bitdown.py:485-495) sets
`self.is_paused = True` and, when a handle exists, calls `handle.pause()`
(pausing an already paused libtorrent handle leaves it paused).  Neither
raises: both are total and return normally (success). -/

/-- Mutable state of a `SimulatedDownloadThread` relevant to pause/stop. -/
structure SimFlags where
  is_paused : Bool
  is_stopped : Bool
deriving DecidableEq, Repr

/-- `SimulatedDownloadThread.pause_download`. -/
def simPauseDownload (st : SimFlags) : SimFlags :=
  { st with is_paused := true }

/-- Mutable state of a `DownloadThread` relevant to pause/resume. -/
structure DLFlags where
  is_paused : Bool
  is_stopped : Bool
  hasHandle : Bool
  handlePaused : Bool
deriving DecidableEq, Repr

/-- `DownloadThread.pause_download`: set the flag and pause the handle when
one exists. -/
def dlPauseDownload (st : DLFlags) : DLFlags :=
  { st with
    is_paused := true
    handlePaused := if st.hasHandle then true else st.handlePaused }

/-! ## The supervisor (`BitDownMainWindow`)

Magnet links are modelled as `List Char` (Python `str`), so that
`str.strip()` and `str.startswith` become directly computable list
functions. -/

/-- Characters removed by Python's `str.strip()` (ASCII whitespace). -/
def isPySpace (c : Char) : Bool :=
  c == ' ' || c == '\t' || c == '\n' || c == '\r' || c == '\x0b' || c == '\x0c'

/-- Python `str.strip()`. -/
def stripChars (l : List Char) : List Char :=
  ((l.dropWhile isPySpace).reverse.dropWhile isPySpace).reverse

/-- Python `a.startswith(b)` on character lists. -/
def startsWithChars : List Char → List Char → Bool
  | _, [] => true
  | [], _ :: _ => false
  | c :: cs, d :: ds => c == d && startsWithChars cs ds

/-- The literal `"magnet:"` checked at src/bitdown.py:819. -/
def magnetScheme : List Char := ['m', 'a', 'g', 'n', 'e', 't', ':']

/-- One engine thread object held in `self.download_threads`.  `engineId`
stands for Python object identity: each constructed thread object gets the
then-current value of the supervisor's construction counter. -/
structure Engine where
  engineId : Nat
  kind : EngineKind
  is_paused : Bool
  is_stopped : Bool
  /-- thread `isRunning()` -/
  running : Bool
deriving DecidableEq, Repr

/-- One row of the task table: id and full magnet link (UserRole data of
column 0), the status text of column 5, and the progress/rate/time cells. -/
structure TaskRow where
  id : Nat
  magnet : List Char
  status : Status
  progress : Nat
  rate : ℚ
  timeLeft : ℚ
deriving DecidableEq, Repr

/-- State of `BitDownMainWindow`: the task table, the thread dict
`download_threads` (id-keyed, insertion ordered), and `task_counter`.
`next_engine` instruments thread-object construction: it is the number of
engine threads constructed so far and is the id stamped on the next one. -/
structure Supervisor where
  rows : List TaskRow
  download_threads : List (Nat × Engine)
  task_counter : Nat
  next_engine : Nat
deriving DecidableEq, Repr

/-- Dict lookup `task_id in self.download_threads` /
`self.download_threads[task_id]`. -/
def lookupThread (l : List (Nat × Engine)) (k : Nat) : Option Engine :=
  (l.find? (fun p => p.1 == k)).map (fun p => p.2)

/-- Mutation of the thread object stored under key `k` (Python mutates the
object in place; the dict structure is unchanged). -/
def updateThread (l : List (Nat × Engine)) (k : Nat) (f : Engine → Engine) :
    List (Nat × Engine) :=
  l.map (fun p => if p.1 == k then (p.1, f p.2) else p)

/-- `del self.download_threads[task_id]`. -/
def eraseThread (l : List (Nat × Engine)) (k : Nat) : List (Nat × Engine) :=
  l.filter (fun p => !(p.1 == k))

/-- `sum(1 for task in self.download_threads.values() if task.isRunning()
and not task.is_paused)` (src/bitdown.py:872-873). -/
def countRunning (l : List (Nat × Engine)) : Nat :=
  (l.filter (fun p => p.2.running && !p.2.is_paused)).length

/-- Statuses the spec calls active (`Resolving`, `FetchingMetadata`,
`Downloading`). -/
def Status.isActive : Status → Bool
  | .resolving => true
  | .fetchingMetadata => true
  | .downloading => true
  | _ => false

/-- Number of table rows currently in an active state. -/
def countActive (rows : List TaskRow) : Nat :=
  (rows.filter (fun r => r.status.isActive)).length

/-- Update column 5 of the row with the given task id (the handler
`update_task_status` / the direct `setItem` calls in `start_task`). -/
def setRowStatus (rows : List TaskRow) (tid : Nat) (s : Status) : List TaskRow :=
  rows.map (fun r => if r.id == tid then { r with status := s } else r)

/-- `BitDownMainWindow.start_task` (src/bitdown.py:978-1148), reduced to its
effect on the model state.  If the task already has a thread, its
`resume_download` method is called (lines 1052-1061): the flag `is_paused`
is cleared and the thread emits `status_changed(task_id, "下载中")`, which
the handler writes into the row.  Otherwise a thread is constructed —
per `start_task_engine` this is always the simulated one — registered in
the dict, started, and the row is set to `下载中` (lines 1062-1117). -/
def start_task (hasLibtorrent : Bool) (sup : Supervisor) (tid : Nat) : Supervisor :=
  match lookupThread sup.download_threads tid with
  | some _ =>
    { sup with
      download_threads :=
        updateThread sup.download_threads tid (fun e => { e with is_paused := false })
      rows := setRowStatus sup.rows tid .downloading }
  | none =>
    let kind := start_task_engine hasLibtorrent startTaskScope
    let e : Engine :=
      { engineId := sup.next_engine, kind := kind,
        is_paused := false, is_stopped := false, running := true }
    { sup with
      download_threads := sup.download_threads ++ [(tid, e)]
      next_engine := sup.next_engine + 1
      rows := setRowStatus sup.rows tid .downloading }

/-- Synchronous failure of `add_download`'s validation (the warning dialogs
at src/bitdown.py:814-821). -/
inductive SubmitError where
  | invalidInput
deriving DecidableEq, Repr

/-- The validation and task-creation part of `add_download`
(src/bitdown.py:811-925): strip the input, reject the empty string and
inputs not starting with `magnet:` (no task is created), count running
threads against `max_tasks` (a warning dialog only, line 874-877),
increment `task_counter`, and append a new row in `等待中` (waiting) state.
Returns (state, result, warned). -/
def submit_create (max_tasks : Nat) (sup : Supervisor) (input : List Char) :
    Supervisor × Except SubmitError Nat × Bool :=
  let magnet_link := stripChars input
  if magnet_link == [] then
    (sup, .error .invalidInput, false)
  else if !(startsWithChars magnet_link magnetScheme) then
    (sup, .error .invalidInput, false)
  else
    let running_tasks := countRunning sup.download_threads
    let warned := max_tasks ≤ running_tasks
    let task_id := sup.task_counter + 1
    let row : TaskRow :=
      { id := task_id, magnet := magnet_link, status := .waiting,
        progress := 0, rate := 0, timeLeft := 0 }
    ({ sup with task_counter := task_id, rows := sup.rows ++ [row] },
     .ok task_id, warned)

/-- Full `BitDownMainWindow.add_download` (src/bitdown.py:811-976):
validation and creation via `submit_create`, then the unconditional
auto-start `self.start_task(row_position)` at line 964. -/
def add_download (hasLibtorrent : Bool) (max_tasks : Nat) (sup : Supervisor)
    (input : List Char) : Supervisor × Except SubmitError Nat × Bool :=
  match submit_create max_tasks sup input with
  | (sup1, .ok tid, warned) => (start_task hasLibtorrent sup1 tid, .ok tid, warned)
  | r => r

/-- `thread.stop()` as called by `cancel_task`:
`SimulatedDownloadThread.stop` (lines 192-196) sets `is_stopped` and clears
`is_paused`; `DownloadThread.stop` (lines 510-518) sets `is_stopped`. -/
def stopEngine (e : Engine) : Engine :=
  match e.kind with
  | .simulated => { e with is_stopped := true, is_paused := false }
  | .real => { e with is_stopped := true }

/-- `BitDownMainWindow.cancel_task` (src/bitdown.py:1167-1183): after the
confirmation dialog, stop the thread if one is registered and delete it
from the dict, then remove the task's row.  Returns the new state and the
(stopped) thread object that was released, if any. -/
def cancel_task (sup : Supervisor) (tid : Nat) (confirm : Bool) :
    Supervisor × Option Engine :=
  if confirm then
    match lookupThread sup.download_threads tid with
    | some e =>
      ({ sup with
         download_threads := eraseThread sup.download_threads tid
         rows := sup.rows.filter (fun r => !(r.id == tid)) },
       some (stopEngine e))
    | none =>
      ({ sup with rows := sup.rows.filter (fun r => !(r.id == tid)) }, none)
  else
    (sup, none)

/-- `BitDownMainWindow.update_task_progress` (src/bitdown.py:1226-1253):
find the row with the emitting task's id; when no row exists (`row == -1`)
return without touching anything, otherwise write the progress bar, the
speed cell and the remaining-time cell. -/
def update_task_progress (sup : Supervisor) (tid progress : Nat)
    (download_rate time_left : ℚ) : Supervisor :=
  match sup.rows.find? (fun r => r.id == tid) with
  | none => sup
  | some _ =>
    { sup with rows := sup.rows.map (fun r =>
        if r.id == tid then
          { r with progress := progress, rate := download_rate, timeLeft := time_left }
        else r) }

/-! ## The real download loop (`DownloadThread.run`)

The metadata-wait loop (lines 354-375) and the main download loop
(lines 382-452) are embedded as fuel-indexed trace functions over oracles
for the external libtorrent handle (`LoopEnv`) and for the flags that
`pause_download`/`resume_download`/`stop` set asynchronously (`Flags`),
both indexed by the loop iteration.  `none` means the fuel ran out before
the loop terminated. -/

/-- What the external libtorrent capability reports at each iteration. -/
structure LoopEnv where
  /-- `status.state in {seeding, finished}` (lines 398-400) -/
  finished : Nat → Bool
  /-- `int(status.progress * 100)` -/
  progressAt : Nat → Nat
  /-- `status.download_rate / 1024` (KB/s) -/
  rateAt : Nat → ℚ
  /-- `torrent_info.total_size()` -/
  totalBytes : Nat
  /-- `status.total_done` -/
  doneAt : Nat → Nat
  /-- `int(time.time() * 10) % 5 == 0` (line 440) -/
  heartbeat : Nat → Bool
  savePath : String

/-- The thread's control flags at each iteration, as set asynchronously by
the supervisor's control calls. -/
structure Flags where
  stoppedFlag : Nat → Bool
  pausedFlag : Nat → Bool

/-- The progress-reporting section of one loop iteration
(src/bitdown.py:422-445): compute progress, rate and `time_left` and emit
an update when progress changed or the 500ms heartbeat elapsed, recording
the emitted progress in `last_progress`. -/
def progress_step (env : LoopEnv) (i last : Nat) : List Ev × Nat :=
  let progress := env.progressAt i
  let download_rate := env.rateAt i
  let time_left := compute_time_left env.totalBytes (env.doneAt i) download_rate progress
  if progress != last || env.heartbeat i then
    ([.progressEv progress download_rate time_left], progress)
  else
    ([], last)

/-- Whether the loop is at the top of the `while True:` body or inside the
inner pause-wait loop of lines 411-412. -/
inductive LoopMode where
  | top
  | pausedWait
deriving DecidableEq, Repr

/-- The main download loop of `DownloadThread.run` (src/bitdown.py:382-452)
from iteration `i` with `last_progress = last`.  Returns the emitted events
and whether `session.remove_torrent(handle)` was called (the stop path,
lines 385-392).  Loop body order as in the source: the stop flag is checked
first; then the handle status (break to the completion block of lines
448-452 when seeding/finished); then the pause branch (emit `已暂停`, wait
until resumed or stopped, emit `下载中` on resume, and fall through to the
progress section of the same iteration); then the progress section. -/
def downloadLoop (env : LoopEnv) (fl : Flags) :
    Nat → LoopMode → Nat → Nat → Option (List Ev × Bool)
  | 0, _, _, _ => none
  | fuel + 1, .top, i, last =>
    if fl.stoppedFlag i then
      some ([.statusEv .cancelled], true)
    else if env.finished i then
      some ([.statusEv .completed, .progressEv 100 0 0, .completedEv env.savePath], false)
    else if fl.pausedFlag i then
      (downloadLoop env fl fuel .pausedWait (i + 1) last).map
        (fun r => (Ev.statusEv .paused :: r.1, r.2))
    else
      let (evs, last') := progress_step env i last
      (downloadLoop env fl fuel .top (i + 1) last').map
        (fun r => (evs ++ r.1, r.2))
  | fuel + 1, .pausedWait, i, last =>
    if fl.pausedFlag i && !fl.stoppedFlag i then
      downloadLoop env fl fuel .pausedWait (i + 1) last
    else
      let resumeEvs := if fl.stoppedFlag i then [] else [Ev.statusEv .downloading]
      let (evs, last') := progress_step env i last
      (downloadLoop env fl fuel .top (i + 1) last').map
        (fun r => (resumeEvs ++ evs ++ r.1, r.2))

/-- Does an event list contain a progress sample? -/
def hasProgressEv (evs : List Ev) : Bool :=
  evs.any (fun e => match e with
    | .progressEv _ _ _ => true
    | _ => false)

/-- Outcome of the metadata-wait loop of `DownloadThread.run`. -/
inductive MetaResult where
  | metadataReady
  | cancelled
  | failedTimeout (msg : String)
deriving DecidableEq, Repr

/-- `max_wait_time = 300  # 5分钟` (src/bitdown.py:356), in seconds. -/
def max_wait_time : Nat := 300

/-- The metadata-wait loop (src/bitdown.py:354-375).  `t` counts tenths of
a second since `start_time` (the loop sleeps 0.1s per iteration), so the
timeout test `time.time() - start_time > max_wait_time` reads
`10 * max_wait_time < t`.  Body order as in the source: the `while` guard
`not handle.has_metadata()` first, then the stop flag (remove torrent, emit
`已取消`, return), then the timeout (emit the error and return). -/
def metadataWait (hasMeta stopFlag : Nat → Bool) : Nat → Nat → Option MetaResult
  | 0, _ => none
  | fuel + 1, t =>
    if hasMeta t then some .metadataReady
    else if stopFlag t then some .cancelled
    else if 10 * max_wait_time < t then some (.failedTimeout "获取元数据超时")
    else metadataWait hasMeta stopFlag fuel (t + 1)

/-! ## The simulated engine run (`SimulatedDownloadThread.run`)

src/bitdown.py:109-179.  The randomness of `random.randint(50*1024,
150*1024)` is modelled by an arbitrary stream `r : Nat → Nat`, mapped into
the inclusive range exactly as `randint` bounds it. -/

/-- `total_size = 1024 * 1024  # 模拟1MB大小` (line 136). -/
def total_size : Nat := 1024 * 1024

/-- `chunk_size = random.randint(50 * 1024, 150 * 1024)` (line 150): the
`k`-th draw, taken from the stream `r` and reduced into the inclusive
range. -/
def chunk_size (r : Nat → Nat) (k : Nat) : Nat :=
  50 * 1024 + r k % (100 * 1024 + 1)

/-- The simulated download loop (src/bitdown.py:142-162) with neither pause
nor stop requested: each iteration draws a chunk, advances `downloaded`
(clamped to `total_size`), computes the truncated percentage, the rate in
KB/s and `time_left`, and emits a progress update.  Fuel-indexed; 21
iterations always suffice since every chunk is at least 50 KiB. -/
def sim_download_loop (r : Nat → Nat) : Nat → Nat → Nat → List Ev
  | 0, _, _ => []
  | fuel + 1, k, downloaded =>
    if downloaded < total_size then
      let c := chunk_size r k
      let d := min (downloaded + c) total_size
      let progress := d * 100 / total_size
      let download_rate : ℚ := (c : ℚ) / 1024
      let time_left : ℚ :=
        if 0 < download_rate then ((total_size : ℚ) - (d : ℚ)) / (download_rate * 1024) else 0
      Ev.progressEv progress download_rate time_left
        :: sim_download_loop r fuel (k + 1) d
    else []

/-- The placeholder path
`os.path.join(save_path, f"模拟文件_{hash(magnet_link) % 10000}.torrent")`
(lines 119-120); `magnetHash` stands for Python's `hash(self.magnet_link)`
value. -/
def sim_file_path (magnetHash : Nat) (savePath : String) : String :=
  savePath ++ "/" ++ "模拟文件_" ++ toString (magnetHash % 10000) ++ ".torrent"

/-- Result of one simulated run: the emitted events and the files written
(path, size in bytes). -/
structure SimRun where
  events : List Ev
  files : List (String × Nat)
deriving DecidableEq, Repr

/-- `SimulatedDownloadThread.run` (src/bitdown.py:109-179) on a task that is
never paused or stopped: emit `解析中`, write the 10240-byte placeholder
file, emit `下载中`, run the download loop, then emit `下载完成`, a final
`progress_updated(100, 0, 0)`, and `completed` with the placeholder path. -/
def sim_run (r : Nat → Nat) (fuel magnetHash : Nat) (savePath : String) : SimRun :=
  let file_path := sim_file_path magnetHash savePath
  { events :=
      [Ev.statusEv .resolving]
        ++ [Ev.statusEv .downloading]
        ++ sim_download_loop r fuel 0 0
        ++ [Ev.statusEv .completed, Ev.progressEv 100 0 0, Ev.completedEv file_path]
    files := [(file_path, 10240)] }

/-- The progress values carried by the progress samples of an event list,
in emission order. -/
def progressValues (evs : List Ev) : List Nat :=
  evs.filterMap (fun e => match e with
    | .progressEv p _ _ => some p
    | _ => none)

end BitDown

namespace BitDown

/-- C2: For every start of a task that does not already have a running
engine, the engine actually started is the simulated one
(`SimulatedDownloadThread`), regardless of whether libtorrent is
available: the real-engine construction in `start_task` references the
undefined name `max_download_rate`, so it always raises and the catch-all
substitutes the simulated engine. -/
theorem C2_start_always_simulated :
    ∀ hasLibtorrent : Bool,
      start_task_engine hasLibtorrent startTaskScope = EngineKind.simulated := by
  decide

/-- C1: The claim says an aggregator tick publishes the sum of
`downloadRateBytesPerSec` over Downloading tasks (350 for rates 100 and
250) and the count of non-terminal tasks.  The code's tick handler
`update_global_stats` is a stub: its loop body is `pass` and it always
renders the constant label `总速度: 0 KB/s`, publishing no task count at
all — so at the failing input of two running unpaused threads with rates
100 and 250 (plus one paused thread at 80) it publishes 0 while the
spec-side sum is 350. -/
theorem C1_stats_tick_is_stub :
    update_global_stats
        [⟨true, false, 100⟩, ⟨true, false, 250⟩, ⟨true, true, 80⟩] = 0
      ∧ update_global_stats_label
          [⟨true, false, 100⟩, ⟨true, false, 250⟩, ⟨true, true, 80⟩]
          = "总速度: 0 KB/s"
      ∧ specTickTotalRate
          [⟨true, false, 100⟩, ⟨true, false, 250⟩, ⟨true, true, 80⟩] = 350
      ∧ (0 : Nat) ≠ 350 := by
  refine ⟨rfl, rfl, rfl, by decide⟩

/-- C7: For every progress sample of the real engine, `time_left` equals
`(totalBytes − downloadedBytes)` divided by the download rate in bytes per
second (`downloadRateKB * 1024`) when the rate is positive and progress is
below 100, and equals the 0 sentinel when the rate is 0 or progress is
already 100. -/
theorem C7_time_left_formula (totalBytes totalDone : Nat) (downloadRateKB : ℚ)
    (progress : Nat) :
    (0 < downloadRateKB → progress < 100 →
      compute_time_left totalBytes totalDone downloadRateKB progress
        = ((totalBytes : ℚ) - (totalDone : ℚ)) / (downloadRateKB * 1024))
    ∧ (downloadRateKB = 0 ∨ progress = 100 →
      compute_time_left totalBytes totalDone downloadRateKB progress = 0) := by
  constructor
  · intro hr hp
    simp [compute_time_left, hr, hp]
  · intro h
    rcases h with h | h
    · simp [compute_time_left, h]
    · simp [compute_time_left, h]

/-- Witness for C7 at a concrete sample: total 1048576 bytes, 262144 done,
rate 256 KB/s, progress 25 gives (1048576 − 262144)/(256·1024) = 3 seconds;
and with rate 0 the sentinel 0 is reported. -/
theorem C7_time_left_formula_witness :
    compute_time_left 1048576 262144 256 25 = ((1048576 : ℚ) - 262144) / (256 * 1024)
      ∧ compute_time_left 1048576 262144 0 25 = 0 :=
  ⟨(C7_time_left_formula 1048576 262144 256 25).1 (by norm_num) (by norm_num),
   (C7_time_left_formula 1048576 262144 0 25).2 (Or.inl rfl)⟩

/-- C10: `pause_download` is idempotent on both engine classes: calling it
twice leaves the same state as calling it once, and calling it on an
already-paused simulated thread (resp. a real thread whose handle is
already paused) changes nothing — it is a no-op that returns normally, not
an error. -/
theorem C10_pause_idempotent (s : SimFlags) (t : DLFlags) :
    simPauseDownload (simPauseDownload s) = simPauseDownload s
    ∧ dlPauseDownload (dlPauseDownload t) = dlPauseDownload t
    ∧ (s.is_paused = true → simPauseDownload s = s)
    ∧ (t.is_paused = true → t.handlePaused = true → dlPauseDownload t = t) := by
  refine ⟨rfl, ?_, ?_, ?_⟩
  · simp [dlPauseDownload]
  · intro h
    cases s
    simp_all [simPauseDownload]
  · intro h1 h2
    cases t
    simp_all [dlPauseDownload]

/-- Witness for C10 on a concrete already-paused simulated thread and a
concrete already-paused real thread with a paused handle. -/
theorem C10_pause_idempotent_witness :
    simPauseDownload ⟨true, false⟩ = (⟨true, false⟩ : SimFlags)
      ∧ dlPauseDownload ⟨true, false, true, true⟩ = (⟨true, false, true, true⟩ : DLFlags) :=
  ⟨(C10_pause_idempotent ⟨true, false⟩ ⟨true, false, true, true⟩).2.2.1 rfl,
   (C10_pause_idempotent ⟨true, false⟩ ⟨true, false, true, true⟩).2.2.2 rfl rfl⟩

/-- C3: The claim says at most `maxConcurrentTasks` tasks are ever active
and the excess stays Pending.  The code computes the running count but only
shows an information dialog when the limit is reached and then starts the
new task anyway (src/bitdown.py:871-877, auto-start at 964): with
`max_tasks = 1`, submitting two valid magnet links leaves both tasks in
`下载中` — 2 active tasks, exceeding the configured limit of 1, with the
second submission merely flagged by the warning dialog. -/
theorem C3_limit_only_warns :
    let sup0 : Supervisor := ⟨[], [], 0, 0⟩
    let step1 := add_download true 1 sup0 ['m','a','g','n','e','t',':','a']
    let step2 := add_download true 1 step1.1 ['m','a','g','n','e','t',':','b']
    countActive step2.1.rows = 2
      ∧ ¬(countActive step2.1.rows ≤ 1)
      ∧ step2.2.2 = true
      ∧ (step2.1.rows.filter (fun r => r.status == Status.waiting)).length = 0 := by
  decide

/-- C6: the metadata-wait loop fails with the timeout error rather than
waiting indefinitely: if the handle never obtains metadata and the task is
not stopped, the loop terminates with `Failed("获取元数据超时")` as soon as
more than `max_wait_time` (300s, i.e. 3000 iterations of 0.1s) have
elapsed; fuel `3002 - t` suffices from elapsed time `t`. -/
theorem C6_metadata_timeout (hasMeta stopFlag : Nat → Bool) (fuel t : Nat)
    (hm : ∀ s, hasMeta s = false) (hs : ∀ s, stopFlag s = false)
    (hf : 1 ≤ fuel) (hft : 3002 ≤ fuel + t) :
    metadataWait hasMeta stopFlag fuel t
      = some (MetaResult.failedTimeout "获取元数据超时") := by
  induction fuel generalizing t with
  | zero => omega
  | succ n ih =>
    by_cases hlt : 10 * max_wait_time < t
    · simp [metadataWait, hm, hs, hlt]
    · have hmax : max_wait_time = 300 := rfl
      rw [hmax] at hlt
      have hn1 : 1 ≤ n := by omega
      have hrec := ih (t + 1) hn1 (by omega)
      simp [metadataWait, hm, hs, hlt, hmax, hrec]

/-- Witness for C6: with metadata never arriving and no stop request, the
loop started at elapsed time 0 with fuel 3002 reports the timeout
failure. -/
theorem C6_metadata_timeout_witness :
    metadataWait (fun _ => false) (fun _ => false) 3002 0
      = some (MetaResult.failedTimeout "获取元数据超时") :=
  C6_metadata_timeout (fun _ => false) (fun _ => false) 3002 0
    (fun _ => rfl) (fun _ => rfl) (by norm_num) (by norm_num)

theorem lookupThread_updateThread (l : List (Nat × Engine)) (k : Nat)
    (f : Engine → Engine) :
    lookupThread (updateThread l k f) k = (lookupThread l k).map f := by
  induction l with
  | nil => rfl
  | cons p l ih =>
    rcases p with ⟨a, e⟩
    by_cases h : a = k
    · subst h
      simp [lookupThread, updateThread, List.find?_cons]
    · simp only [lookupThread, updateThread, List.map_cons] at ih ⊢
      rw [if_neg (by simpa using h)]
      rw [List.find?_cons_of_neg _ (by simpa using h),
        List.find?_cons_of_neg _ (by simpa using h)]
      exact ih

theorem updateThread_length (l : List (Nat × Engine)) (k : Nat)
    (f : Engine → Engine) :
    (updateThread l k f).length = l.length := by
  simp [updateThread]

theorem lookupThread_eraseThread (l : List (Nat × Engine)) (k : Nat) :
    lookupThread (eraseThread l k) k = none := by
  have : (eraseThread l k).find? (fun p => p.1 == k) = none := by
    rw [List.find?_eq_none]
    intro p hp
    have := (List.mem_filter.mp hp).2
    simp_all
  simp [lookupThread, this]

theorem find_row_erased (rows : List TaskRow) (tid : Nat) :
    (rows.filter (fun r => !(r.id == tid))).find? (fun r => r.id == tid) = none := by
  rw [List.find?_eq_none]
  intro r hr
  have := (List.mem_filter.mp hr).2
  simp_all

/-- C8: at most one engine is ever associated with a task: `start_task` on
a task that already has a registered engine thread resumes that very
thread (clearing `is_paused`, preserving its identity `engineId`) instead
of constructing a second one — the construction counter and the registry
size are unchanged. -/
theorem C8_start_resumes_existing (hasLibtorrent : Bool) (sup : Supervisor)
    (tid : Nat) (e : Engine)
    (h : lookupThread sup.download_threads tid = some e) :
    lookupThread (start_task hasLibtorrent sup tid).download_threads tid
        = some { e with is_paused := false }
      ∧ (start_task hasLibtorrent sup tid).next_engine = sup.next_engine
      ∧ (start_task hasLibtorrent sup tid).download_threads.length
          = sup.download_threads.length := by
  have hred : start_task hasLibtorrent sup tid
      = { sup with
          download_threads :=
            updateThread sup.download_threads tid (fun e => { e with is_paused := false })
          rows := setRowStatus sup.rows tid Status.downloading } := by
    unfold start_task
    rw [h]
  refine ⟨?_, ?_, ?_⟩
  · rw [hred]
    show lookupThread (updateThread sup.download_threads tid
        (fun e => { e with is_paused := false })) tid = _
    rw [lookupThread_updateThread, h]
    rfl
  · rw [hred]
  · rw [hred]
    show (updateThread sup.download_threads tid
        (fun e => { e with is_paused := false })).length = _
    exact updateThread_length _ _ _

/-- Witness for C8: starting a task whose paused simulated engine (object
id 0) is registered resumes that object; no construction happens. -/
theorem C8_start_resumes_existing_witness :
    lookupThread
        (start_task true
          ⟨[⟨1, ['m'], Status.paused, 50, 0, 0⟩],
           [(1, ⟨0, EngineKind.simulated, true, false, true⟩)], 1, 1⟩
          1).download_threads 1
        = some ⟨0, EngineKind.simulated, false, false, true⟩
      ∧ (start_task true
          ⟨[⟨1, ['m'], Status.paused, 50, 0, 0⟩],
           [(1, ⟨0, EngineKind.simulated, true, false, true⟩)], 1, 1⟩
          1).next_engine = 1
      ∧ (start_task true
          ⟨[⟨1, ['m'], Status.paused, 50, 0, 0⟩],
           [(1, ⟨0, EngineKind.simulated, true, false, true⟩)], 1, 1⟩
          1).download_threads.length = 1 :=
  C8_start_resumes_existing true
    ⟨[⟨1, ['m'], Status.paused, 50, 0, 0⟩],
     [(1, ⟨0, EngineKind.simulated, true, false, true⟩)], 1, 1⟩
    1 ⟨0, EngineKind.simulated, true, false, true⟩ rfl

/-- C4: cancelling a task in a non-terminal state signals its engine to
stop and releases it (the stopped thread is deleted from the registry),
the engine observes the flag at the next loop iteration and emits exactly
`StatusChanged(已取消)` — removing its torrent, emitting no further
progress sample — and after the cancellation no progress sample can be
delivered for the task: its row is gone, so the delivery handler is a
no-op. -/
theorem C4_cancel_releases_and_silences (sup : Supervisor) (tid : Nat)
    (e : Engine) (row : TaskRow) (env : LoopEnv) (fl : Flags)
    (fuel i last : Nat)
    (_hrow : sup.rows.find? (fun r => r.id == tid) = some row)
    (_hnt : row.status.isTerminal = false)
    (heng : lookupThread sup.download_threads tid = some e)
    (hstop : fl.stoppedFlag i = true) :
    (cancel_task sup tid true).2 = some (stopEngine e)
      ∧ lookupThread (cancel_task sup tid true).1.download_threads tid = none
      ∧ downloadLoop env fl (fuel + 1) LoopMode.top i last
          = some ([Ev.statusEv Status.cancelled], true)
      ∧ hasProgressEv [Ev.statusEv Status.cancelled] = false
      ∧ ∀ p rt tl,
          update_task_progress (cancel_task sup tid true).1 tid p rt tl
            = (cancel_task sup tid true).1 := by
  have hcancel : cancel_task sup tid true
      = ({ sup with
            download_threads := eraseThread sup.download_threads tid
            rows := sup.rows.filter (fun r => !(r.id == tid)) },
         some (stopEngine e)) := by
    unfold cancel_task
    rw [heng]
    rfl
  refine ⟨by rw [hcancel], ?_, ?_, rfl, ?_⟩
  · rw [hcancel]
    exact lookupThread_eraseThread _ _
  · simp [downloadLoop, hstop]
  · intro p rt tl
    rw [hcancel]
    unfold update_task_progress
    rw [find_row_erased]

/-- Witness for C4: cancelling task 1, which is Downloading with a real
engine (object id 0) whose stop flag is observed at iteration 3. -/
theorem C4_cancel_releases_and_silences_witness :
    (cancel_task
        ⟨[⟨1, ['m'], Status.downloading, 50, 0, 0⟩],
         [(1, ⟨0, EngineKind.real, false, false, true⟩)], 1, 1⟩ 1 true).2
        = some (stopEngine ⟨0, EngineKind.real, false, false, true⟩)
      ∧ lookupThread (cancel_task
          ⟨[⟨1, ['m'], Status.downloading, 50, 0, 0⟩],
           [(1, ⟨0, EngineKind.real, false, false, true⟩)], 1, 1⟩ 1 true).1.download_threads 1
          = none
      ∧ downloadLoop
          ⟨fun _ => false, fun _ => 50, fun _ => 1, 1000, fun _ => 500,
           fun _ => false, "save"⟩
          ⟨fun _ => true, fun _ => false⟩ (5 + 1) LoopMode.top 3 50
          = some ([Ev.statusEv Status.cancelled], true)
      ∧ hasProgressEv [Ev.statusEv Status.cancelled] = false
      ∧ ∀ p rt tl,
          update_task_progress
            (cancel_task
              ⟨[⟨1, ['m'], Status.downloading, 50, 0, 0⟩],
               [(1, ⟨0, EngineKind.real, false, false, true⟩)], 1, 1⟩ 1 true).1 1 p rt tl
            = (cancel_task
              ⟨[⟨1, ['m'], Status.downloading, 50, 0, 0⟩],
               [(1, ⟨0, EngineKind.real, false, false, true⟩)], 1, 1⟩ 1 true).1 :=
  C4_cancel_releases_and_silences
    ⟨[⟨1, ['m'], Status.downloading, 50, 0, 0⟩],
     [(1, ⟨0, EngineKind.real, false, false, true⟩)], 1, 1⟩ 1
    ⟨0, EngineKind.real, false, false, true⟩
    ⟨1, ['m'], Status.downloading, 50, 0, 0⟩
    ⟨fun _ => false, fun _ => 50, fun _ => 1, 1000, fun _ => 500,
     fun _ => false, "save"⟩
    ⟨fun _ => true, fun _ => false⟩ 5 3 50 rfl rfl rfl rfl

/-- C5: `add_download`'s validation: an input that strips to the empty
string, or whose stripped form does not start with `magnet:`, is rejected
with the invalid-input warning and the state — in particular the task
registry — is unchanged; a valid magnet link creates exactly one new task
row in `等待中` (Pending) state whose id `task_counter + 1` is strictly
greater than every existing task id. -/
theorem C5_submit_validation (max_tasks : Nat) (sup : Supervisor)
    (input : List Char)
    (hids : ∀ r ∈ sup.rows, r.id ≤ sup.task_counter) :
    (stripChars input = [] ∨ startsWithChars (stripChars input) magnetScheme = false →
      submit_create max_tasks sup input
        = (sup, Except.error SubmitError.invalidInput, false))
    ∧ (stripChars input ≠ [] →
       startsWithChars (stripChars input) magnetScheme = true →
      (submit_create max_tasks sup input).1.rows
          = sup.rows
            ++ [⟨sup.task_counter + 1, stripChars input, Status.waiting, 0, 0, 0⟩]
        ∧ (submit_create max_tasks sup input).1.task_counter
            = sup.task_counter + 1
        ∧ (submit_create max_tasks sup input).2.1
            = Except.ok (sup.task_counter + 1)
        ∧ ∀ r ∈ sup.rows, r.id < sup.task_counter + 1) := by
  constructor
  · rintro (h | h)
    · simp [submit_create, h]
    · unfold submit_create
      by_cases he : stripChars input = []
      · simp [he]
      · simp [he, h]
  · intro h1 h2
    refine ⟨?_, ?_, ?_, fun r hr => Nat.lt_succ_of_le (hids r hr)⟩
      <;> simp [submit_create, h1, h2]

/-- Witness for C5: in a fresh supervisor, `"x"` is rejected leaving the
state untouched, while `"magnet:a"` creates exactly the one new Pending
row with id 1. -/
theorem C5_submit_validation_witness :
    submit_create 5 ⟨[], [], 0, 0⟩ ['x']
        = (⟨[], [], 0, 0⟩, Except.error SubmitError.invalidInput, false)
      ∧ (submit_create 5 ⟨[], [], 0, 0⟩ ['m','a','g','n','e','t',':','a']).1.rows
        = [⟨1, ['m','a','g','n','e','t',':','a'], Status.waiting, 0, 0, 0⟩] :=
  ⟨(C5_submit_validation 5 ⟨[], [], 0, 0⟩ ['x'] (by simp)).1 (Or.inr (by decide)),
   ((C5_submit_validation 5 ⟨[], [], 0, 0⟩ ['m','a','g','n','e','t',':','a']
      (by simp)).2 (by decide) (by decide)).1⟩

theorem chunk_size_ge (r : Nat → Nat) (k : Nat) : 50 * 1024 ≤ chunk_size r k :=
  Nat.le_add_right _ _

theorem div_add_le_div (a b n : Nat) (hn : 0 < n) : a / n + b / n ≤ (a + b) / n := by
  rw [Nat.le_div_iff_mul_le hn]
  calc (a / n + b / n) * n = a / n * n + b / n * n := by ring
    _ ≤ a + b := Nat.add_le_add (Nat.div_mul_le_self a n) (Nat.div_mul_le_self b n)

/-- One simulated-loop step strictly increases the truncated percentage:
clamping to `total_size` and flooring, a chunk of at least 50 KiB out of
the 1 MiB total moves the percentage up by at least 4 points, and the
clamped final step lands on 100, above every percentage of an incomplete
download. -/
theorem sim_progress_strict_mono (d c : Nat) (hd : d < total_size)
    (hc : 50 * 1024 ≤ c) :
    d * 100 / total_size < min (d + c) total_size * 100 / total_size := by
  have hT : 0 < total_size := by norm_num [total_size]
  rcases le_or_lt total_size (d + c) with h | h
  · rw [min_eq_right h]
    have h100 : total_size * 100 / total_size = 100 := by norm_num [total_size]
    rw [h100, Nat.div_lt_iff_lt_mul hT]
    calc d * 100 < total_size * 100 := (Nat.mul_lt_mul_right (by norm_num)).mpr hd
      _ = 100 * total_size := Nat.mul_comm _ _
  · rw [min_eq_left h.le]
    have h4 : 4 ≤ c * 100 / total_size := by
      rw [Nat.le_div_iff_mul_le hT]
      calc 4 * total_size = 4194304 := by norm_num [total_size]
        _ ≤ (50 * 1024) * 100 := by norm_num
        _ ≤ c * 100 := Nat.mul_le_mul_right _ hc
    calc d * 100 / total_size
        < d * 100 / total_size + c * 100 / total_size := by omega
      _ ≤ (d * 100 + c * 100) / total_size := div_add_le_div _ _ _ hT
      _ = (d + c) * 100 / total_size := by rw [Nat.add_mul]

theorem progressValues_sim_loop_succ (r : Nat → Nat) (fuel k d : Nat)
    (hd : d < total_size) :
    progressValues (sim_download_loop r (fuel + 1) k d)
      = min (d + chunk_size r k) total_size * 100 / total_size
        :: progressValues
            (sim_download_loop r fuel (k + 1) (min (d + chunk_size r k) total_size)) := by
  rw [sim_download_loop, if_pos hd]
  rfl

theorem sim_loop_stops_at_total (r : Nat → Nat) (fuel k : Nat) :
    sim_download_loop r fuel k total_size = [] := by
  cases fuel with
  | zero => rfl
  | succ n => rw [sim_download_loop, if_neg (by omega)]

/-- The progress values emitted by the simulated download loop, started at
`downloaded = d` with enough fuel to finish, form a strictly increasing
chain above `d`'s own percentage, and the last percentage reached is
100. -/
theorem sim_loop_progress_chain (r : Nat → Nat) (fuel : Nat) :
    ∀ k d, d ≤ total_size → total_size ≤ d + fuel * (50 * 1024) →
      List.Chain (· < ·) (d * 100 / total_size)
          (progressValues (sim_download_loop r fuel k d))
        ∧ (d * 100 / total_size
            :: progressValues (sim_download_loop r fuel k d)).getLast? = some 100 := by
  induction fuel with
  | zero =>
    intro k d hle hge
    have hd : d = total_size := le_antisymm hle (by simpa using hge)
    subst hd
    rw [show (total_size * 100 / total_size) = 100 from by norm_num [total_size]]
    exact ⟨List.Chain.nil, rfl⟩
  | succ fuel ih =>
    intro k d hle hge
    by_cases hd : d < total_size
    · have hc := chunk_size_ge r k
      have hrec := ih (k + 1) (min (d + chunk_size r k) total_size)
        (min_le_right _ _)
        (by
          rcases le_or_lt total_size (d + chunk_size r k) with h | h
          · rw [min_eq_right h]; omega
          · rw [min_eq_left h.le]; omega)
      have hmono := sim_progress_strict_mono d (chunk_size r k) hd hc
      rw [progressValues_sim_loop_succ r fuel k d hd]
      exact ⟨List.Chain.cons hmono hrec.1,
        by rw [List.getLast?_cons_cons]; exact hrec.2⟩
    · have hd' : d = total_size := le_antisymm hle (by omega)
      subst hd'
      rw [show (total_size * 100 / total_size) = 100 from by norm_num [total_size]]
      refine ⟨?_, ?_⟩
      · rw [sim_loop_stops_at_total]
        exact List.Chain.nil
      · rw [sim_loop_stops_at_total]
        rfl

/-- C9 (amended): on a simulated run with neither pause nor stop, a
10240-byte placeholder file is written under the save path, the emitted
progress values are strictly increasing up to and including the loop's
final value 100, followed by one duplicate 100 emitted by the post-loop
completion sample (so the whole sequence ends at 100 but its last two
entries are both 100), and the run ends with a `completed` event carrying
the placeholder file's path. -/
theorem C9_sim_run_progress (r : Nat → Nat) (fuel magnetHash : Nat)
    (savePath : String) (hfuel : 21 ≤ fuel) :
    List.Chain' (· < ·)
        (progressValues (sim_run r fuel magnetHash savePath).events).dropLast
      ∧ (progressValues (sim_run r fuel magnetHash savePath).events).dropLast.getLast?
          = some 100
      ∧ (progressValues (sim_run r fuel magnetHash savePath).events).getLast?
          = some 100
      ∧ (sim_run r fuel magnetHash savePath).files
          = [(sim_file_path magnetHash savePath, 10240)]
      ∧ (sim_run r fuel magnetHash savePath).events.getLast?
          = some (Ev.completedEv (sim_file_path magnetHash savePath)) := by
  have hpv : progressValues (sim_run r fuel magnetHash savePath).events
      = progressValues (sim_download_loop r fuel 0 0) ++ [100] := by
    simp [sim_run, progressValues, List.filterMap_append]
  have hchain := sim_loop_progress_chain r fuel 0 0 (by norm_num [total_size])
    (by
      have : 21 * (50 * 1024) ≤ fuel * (50 * 1024) :=
        Nat.mul_le_mul_right _ hfuel
      norm_num [total_size] at this ⊢
      omega)
  have h0 : (0 : Nat) * 100 / total_size = 0 := by norm_num
  rw [h0] at hchain
  have hnonempty : progressValues (sim_download_loop r fuel 0 0) ≠ [] := by
    intro hnil
    rw [hnil] at hchain
    simp at hchain
  have hlast : (progressValues (sim_download_loop r fuel 0 0)).getLast? = some 100 := by
    rcases hl : progressValues (sim_download_loop r fuel 0 0) with _ | ⟨a, l⟩
    · exact absurd hl hnonempty
    · rw [hl] at hchain
      rw [List.getLast?_cons_cons] at hchain
      exact hchain.2
  refine ⟨?_, ?_, ?_, rfl, ?_⟩
  · rw [hpv, List.dropLast_concat]
    rcases hl : progressValues (sim_download_loop r fuel 0 0) with _ | ⟨a, l⟩
    · exact List.chain'_nil
    · rw [hl] at hchain
      exact (List.chain_cons.mp hchain.1).2
  · rw [hpv, List.dropLast_concat]
    exact hlast
  · rw [hpv]
    exact List.getLast?_concat _
  · show (([Ev.statusEv Status.resolving] ++ [Ev.statusEv Status.downloading]
        ++ sim_download_loop r fuel 0 0
        ++ [Ev.statusEv Status.completed, Ev.progressEv 100 0 0,
            Ev.completedEv (sim_file_path magnetHash savePath)]) : List Ev).getLast?
      = some (Ev.completedEv (sim_file_path magnetHash savePath))
    rw [List.getLast?_append]
    rfl

/-- Witness for C9 (amended) at the constant random stream 0, fuel 21. -/
theorem C9_sim_run_progress_witness :
    List.Chain' (· < ·)
        (progressValues (sim_run (fun _ => 0) 21 7 "save").events).dropLast
      ∧ (progressValues (sim_run (fun _ => 0) 21 7 "save").events).dropLast.getLast?
          = some 100
      ∧ (progressValues (sim_run (fun _ => 0) 21 7 "save").events).getLast?
          = some 100
      ∧ (sim_run (fun _ => 0) 21 7 "save").files = [(sim_file_path 7 "save", 10240)]
      ∧ (sim_run (fun _ => 0) 21 7 "save").events.getLast?
          = some (Ev.completedEv (sim_file_path 7 "save")) :=
  C9_sim_run_progress (fun _ => 0) 21 7 "save" (by norm_num)

/-- Counterexample to C9 as stated: the claim asserts the emitted progress
sequence is strictly increasing, but after the loop reaches 100 the code
emits `progress_updated(task_id, 100, 0, 0)` once more
(src/bitdown.py:171), so a concrete run (constant random stream 0, i.e.
every chunk 51200 bytes) emits ..., 100, 100 — not strictly increasing. -/
theorem C9_counterexample :
    ¬ List.Chain' (· < ·)
        (progressValues (sim_run (fun _ => 0) 30 7 "save").events) := by
  intro h
  have hpv : progressValues (sim_run (fun _ => 0) 30 7 "save").events
      = [4, 9, 14, 19, 24, 29, 34, 39, 43, 48, 53, 58, 63, 68, 73, 78, 83, 87,
         92, 97] ++ 100 :: 100 :: [] := by decide
  rw [hpv] at h
  exact absurd (List.chain'_append_cons_cons.mp h).2.1 (by norm_num)

end BitDown
